import Mathlib

/-!
Shallow embedding of the ticket lifecycle / timeline core of `server.js`
(vaga_tickets).  The SQLite tables `tickets` and `timeline` are modelled as
Lean lists kept in insertion (rowid) order; the Express route handlers
become pure functions from a `DB` state and the request parameters to the
next state and a result.  JavaScript truthiness on request-body strings is
modelled on `Option String` (`none` = absent/undefined, `some ""` = empty,
both falsy).  Timestamps are abstract `Nat` values passed in as `now`.
-/

namespace VagaTickets

/-- Error taxonomy of the API: HTTP 400 (validation) and 404 (not found). -/
inductive Err where
  | validationError
  | notFound
deriving DecidableEq, Repr

/-- A row of the `tickets` table.  `customer` and `assigned_to` are nullable
columns (`none` = SQL NULL); all other text columns are NOT NULL. -/
structure Ticket where
  id : String
  title : String
  description : String
  customer : Option String
  pipeline : String
  status : String
  priority : String
  assigned_to : Option String
  created_by : String
  created_at : Nat
  updated_at : Nat
deriving DecidableEq, Repr

/-- A row of the `timeline` table; `id` is the AUTOINCREMENT primary key. -/
structure TimelineEntry where
  id : Nat
  ticket_id : String
  action : String
  user : String
  created_at : Nat
deriving DecidableEq, Repr

/-- The persistent store: both tables in insertion (rowid) order, plus the
AUTOINCREMENT counter for `timeline.id`. -/
structure DB where
  tickets : List Ticket
  timeline : List TimelineEntry
  nextTimelineId : Nat
deriving DecidableEq, Repr

/-- JavaScript truthiness test for an optional request-body string:
`undefined` (absent) and `""` are falsy. -/
def falsy (o : Option String) : Bool :=
  match o with
  | none => true
  | some s => decide (s = "")

/-! ## Identifier allocator

`POST /api/tickets` computes
`SELECT MAX(CAST(SUBSTR(id, 5) AS INTEGER)) as max_num FROM tickets`,
then `nextNum = (row.max_num || 0) + 1` and
`ticketId = "TKT-" + String(nextNum).padStart(3, '0')`. -/

/-- Decimal digit character for `d < 10` (the only range `String(n)` emits). -/
def digChar (d : Nat) : Char :=
  match d with
  | 0 => '0'
  | 1 => '1'
  | 2 => '2'
  | 3 => '3'
  | 4 => '4'
  | 5 => '5'
  | 6 => '6'
  | 7 => '7'
  | 8 => '8'
  | _ => '9'

/-- Numeric value of a decimal digit character. -/
def digitVal (c : Char) : Nat := c.toNat - 48

/-- Fuel-driven decimal rendering of a natural number, most significant digit
first; with fuel `> n` it is exactly JavaScript's `String(n)`.  (Fuel keeps
the recursion structural so that concrete values reduce in the kernel.) -/
def natCharsFuel : Nat → Nat → List Char
  | 0, _ => []
  | f + 1, n =>
    if n < 10 then [digChar n]
    else natCharsFuel f (n / 10) ++ [digChar (n % 10)]

/-- Decimal rendering of `n` (the embedding of `String(n)`). -/
def natChars (n : Nat) : List Char := natCharsFuel (n + 1) n

/-- `s.padStart(3, '0')` on a character list. -/
def padStart3 (s : List Char) : List Char :=
  List.replicate (3 - s.length) '0' ++ s

/-- The canonical ticket identifier string for numeric suffix `n`:
`"TKT-" + String(n).padStart(3, '0')`. -/
def tktId (n : Nat) : String :=
  String.mk ('T' :: 'K' :: 'T' :: '-' :: padStart3 (natChars n))

/-- `CAST(s AS INTEGER)` for the strings arising here: the value of the
longest digit prefix, `0` when there is none. -/
def leadingNat (cs : List Char) : Nat :=
  (cs.takeWhile Char.isDigit).foldl (fun a c => a * 10 + digitVal c) 0

/-- `CAST(SUBSTR(id, 5) AS INTEGER)`: numeric value of the longest digit
prefix of the id after its first four characters. -/
def castSuffix (s : String) : Nat := leadingNat (s.data.drop 4)

/-- `MAX(CAST(SUBSTR(id, 5) AS INTEGER))` over the tickets table, with the
`|| 0` default for the empty table. -/
def maxSuffix (ts : List Ticket) : Nat :=
  ts.foldr (fun t m => max (castSuffix t.id) m) 0

/-- The identifier allocator: `"TKT-" + String(max + 1).padStart(3, '0')`. -/
def nextTicketId (ts : List Ticket) : String := tktId (maxSuffix ts + 1)

/-! ## SQL `LIKE` and filtered listing

`GET /api/tickets` appends `AND (title LIKE ? OR description LIKE ? OR
customer LIKE ? OR id LIKE ?)` with parameter `%search%`.  SQLite `LIKE`
(without ESCAPE) matches `%` against any character sequence, `_` against any
single character, and compares other characters ASCII-case-insensitively;
`NULL LIKE pattern` is not true. -/

/-- `anyDrop f l` is true when `f` holds of some suffix of `l` (including `l`
itself and `[]`); used for the `%` wildcard. -/
def anyDrop (f : List Char → Bool) : List Char → Bool
  | [] => f []
  | c :: rest => f (c :: rest) || anyDrop f rest

/-- Declarative SQLite `LIKE` semantics on character lists (pattern first). -/
def likeM : List Char → List Char → Bool
  | [], hs => hs.isEmpty
  | p :: ps, hs =>
    if p = '%' then anyDrop (likeM ps) hs
    else if p = '_' then
      match hs with
      | [] => false
      | _ :: hs2 => likeM ps hs2
    else
      match hs with
      | [] => false
      | h :: hs2 => decide (p.toLower = h.toLower) && likeM ps hs2

/-- `column LIKE pattern` on strings. -/
def sqlLike (pat hay : String) : Bool := likeM pat.data hay.data

/-- The WHERE clause of `GET /api/tickets` applied to one ticket row:
each filter is added only when the query parameter is truthy (and not
`"all"` for pipeline/status); the search pattern is `%search%`. -/
def matchesFilter (pipeline status search : Option String) (t : Ticket) : Bool :=
  (match pipeline with
   | none => true
   | some p => if p = "" ∨ p = "all" then true else decide (t.pipeline = p)) &&
  (match status with
   | none => true
   | some s => if s = "" ∨ s = "all" then true else decide (t.status = s)) &&
  (match search with
   | none => true
   | some q =>
     if q = "" then true
     else
       sqlLike ("%" ++ q ++ "%") t.title ||
       sqlLike ("%" ++ q ++ "%") t.description ||
       (match t.customer with
        | none => false
        | some c => sqlLike ("%" ++ q ++ "%") c) ||
       sqlLike ("%" ++ q ++ "%") t.id)

/-! ## ORDER BY

`ORDER BY` is modelled as a stable insertion sort over the rows in rowid
(insertion) order: ties keep their table order, which for the timeline table
is ascending `id`. -/

/-- Insert `a` before the first element `x` with `le a x`. -/
def insertBy (le : α → α → Bool) (a : α) : List α → List α
  | [] => [a]
  | x :: xs => if le a x then a :: x :: xs else x :: insertBy le a xs

/-- Stable insertion sort by `le`. -/
def sortBy (le : α → α → Bool) : List α → List α
  | [] => []
  | x :: xs => insertBy le x (sortBy le xs)

/-- `ORDER BY created_at ASC` on timeline rows. -/
def sortTimelineAsc (l : List TimelineEntry) : List TimelineEntry :=
  sortBy (fun a b => decide (a.created_at ≤ b.created_at)) l

/-- `ORDER BY created_at DESC` on ticket rows. -/
def sortTicketsDesc (l : List Ticket) : List Ticket :=
  sortBy (fun a b => decide (b.created_at ≤ a.created_at)) l

/-- `GET /api/tickets`: filter then `ORDER BY created_at DESC`. -/
def listTickets (db : DB) (pipeline status search : Option String) : List Ticket :=
  sortTicketsDesc (db.tickets.filter (matchesFilter pipeline status search))

/-- `GET /api/tickets/:id`: the first row with this id, joined with its
timeline `ORDER BY created_at ASC`; 404 (`none`) when no row matches. -/
def getTicket (db : DB) (tid : String) : Option (Ticket × List TimelineEntry) :=
  match db.tickets.find? (fun t => decide (t.id = tid)) with
  | none => none
  | some t =>
    some (t, sortTimelineAsc (db.timeline.filter (fun e => decide (e.ticket_id = tid))))

/-! ## Mutating operations -/

/-- `POST /api/tickets`.  Validation (`!title || !description || !pipeline ||
!priority`) rejects before any write; otherwise the allocator id is
computed, the row inserted with `status = 'new'` and both timestamps `now`,
and one `'Ticket created'` timeline entry appended. -/
def createTicket (db : DB) (now : Nat) (actor : String)
    (title description customer pipeline priority assigned_to : Option String) :
    DB × Except Err Ticket :=
  if falsy title || falsy description || falsy pipeline || falsy priority then
    (db, Except.error Err.validationError)
  else
    let tid := nextTicketId db.tickets
    let t : Ticket :=
      { id := tid, title := title.getD "", description := description.getD "",
        customer := customer, pipeline := pipeline.getD "", status := "new",
        priority := priority.getD "", assigned_to := assigned_to,
        created_by := actor, created_at := now, updated_at := now }
    let e : TimelineEntry :=
      { id := db.nextTimelineId, ticket_id := tid, action := "Ticket created",
        user := actor, created_at := now }
    ({ tickets := db.tickets ++ [t], timeline := db.timeline ++ [e],
       nextTimelineId := db.nextTimelineId + 1 }, Except.ok t)

/-- The `allowedFields` array of `PUT /api/tickets/:id`. -/
def allowedFields : List String :=
  ["pipeline", "status", "priority", "assigned_to", "title", "description", "customer"]

/-- The `fieldNames` label table of `PUT /api/tickets/:id`. -/
def fieldLabel (f : String) : String :=
  if f = "pipeline" then "Pipeline"
  else if f = "status" then "Status"
  else if f = "priority" then "Priority"
  else if f = "assigned_to" then "Assigned To"
  else if f = "title" then "Title"
  else if f = "description" then "Description"
  else if f = "customer" then "Customer"
  else "undefined"

/-- `UPDATE tickets SET <field> = v, updated_at = now` applied to one row. -/
def setField (t : Ticket) (f v : String) (now : Nat) : Ticket :=
  let t2 :=
    if f = "pipeline" then { t with pipeline := v }
    else if f = "status" then { t with status := v }
    else if f = "priority" then { t with priority := v }
    else if f = "assigned_to" then { t with assigned_to := some v }
    else if f = "title" then { t with title := v }
    else if f = "description" then { t with description := v }
    else if f = "customer" then { t with customer := some v }
    else t
  { t2 with updated_at := now }

/-- The timeline `action` string composed by `PUT /api/tickets/:id`:
`oldValue ? label + ' changed from "' + old + '" to "' + v + '"'
          : label + ' updated to "' + v + '"'` (JS truthiness on `oldValue`). -/
def updateAction (f v : String) (oldValue : Option String) : String :=
  match oldValue with
  | some o =>
    if o = "" then fieldLabel f ++ " updated to \"" ++ v ++ "\""
    else fieldLabel f ++ " changed from \"" ++ o ++ "\" to \"" ++ v ++ "\""
  | none => fieldLabel f ++ " updated to \"" ++ v ++ "\""

/-- `PUT /api/tickets/:id`.  Rejects when `!field || value === undefined`,
then when `field` is outside `allowedFields`; the UPDATE touches every row
with this id and `this.changes === 0` yields 404; on success exactly one
timeline entry describing the change is appended and the updated (first
matching) row returned. -/
def updateTicket (db : DB) (now : Nat) (actor : String) (tid : String)
    (field value oldValue : Option String) : DB × Except Err Ticket :=
  if falsy field || value = none then
    (db, Except.error Err.validationError)
  else
    let f := field.getD ""
    if f ∈ allowedFields then
      match db.tickets.find? (fun t => decide (t.id = tid)) with
      | none => (db, Except.error Err.notFound)
      | some t0 =>
        let tickets2 := db.tickets.map (fun t => if t.id = tid then setField t f (value.getD "") now else t)
        let e : TimelineEntry :=
          { id := db.nextTimelineId, ticket_id := tid,
            action := updateAction f (value.getD "") oldValue,
            user := actor, created_at := now }
        ({ tickets := tickets2, timeline := db.timeline ++ [e],
           nextTimelineId := db.nextTimelineId + 1 },
         Except.ok (setField t0 f (value.getD "") now))
    else (db, Except.error Err.validationError)

/-- `DELETE /api/tickets/:id`.  The handler first runs
`DELETE FROM timeline WHERE ticket_id = ?`, then
`DELETE FROM tickets WHERE id = ?`, reporting 404 when the second delete
touched no row — the timeline delete has already happened by then. -/
def deleteTicket (db : DB) (tid : String) : DB × Except Err Unit :=
  let tl := db.timeline.filter (fun e => decide (¬ e.ticket_id = tid))
  if db.tickets.any (fun t => decide (t.id = tid)) then
    ({ db with tickets := db.tickets.filter (fun t => decide (¬ t.id = tid)),
               timeline := tl }, Except.ok ())
  else
    ({ db with timeline := tl }, Except.error Err.notFound)

/-- `POST /api/tickets/:id/timeline`.  `userName = user || actor`; rejects
when `!action`; otherwise inserts the entry without checking that the ticket
exists (no foreign-key enforcement). -/
def addTimelineEntry (db : DB) (now : Nat) (actor : String) (tid : String)
    (action user : Option String) : DB × Except Err TimelineEntry :=
  let userName := if falsy user then actor else user.getD ""
  if falsy action then
    (db, Except.error Err.validationError)
  else
    let e : TimelineEntry :=
      { id := db.nextTimelineId, ticket_id := tid, action := action.getD "",
        user := userName, created_at := now }
    ({ db with timeline := db.timeline ++ [e],
               nextTimelineId := db.nextTimelineId + 1 }, Except.ok e)

/-- The record produced by `GET /api/stats`. -/
structure Stats where
  marketing : Nat
  sales : Nat
  orders : Nat
  support : Nat
  total : Nat
deriving DecidableEq, Repr

/-- `GET /api/stats`: four `COUNT(*) ... WHERE pipeline = p AND
status != 'completed'` queries plus a plain `COUNT(*)`. -/
def getStats (db : DB) : Stats :=
  { marketing := db.tickets.countP (fun t => decide (t.pipeline = "marketing" ∧ ¬ t.status = "completed")),
    sales := db.tickets.countP (fun t => decide (t.pipeline = "sales" ∧ ¬ t.status = "completed")),
    orders := db.tickets.countP (fun t => decide (t.pipeline = "orders" ∧ ¬ t.status = "completed")),
    support := db.tickets.countP (fun t => decide (t.pipeline = "support" ∧ ¬ t.status = "completed")),
    total := db.tickets.length }

/-! ## Spec-side definitions

These follow the spec's words (not the source) and are compared with the
source-derived definitions above in the refinement theorems. -/

/-- Spec-side: strict parse of an identifier "matching the `TKT-<n>`
pattern", returning its numeric suffix. -/
def parseTKT (s : String) : Option Nat :=
  match s.data with
  | 'T' :: 'K' :: 'T' :: '-' :: rest =>
    if rest ≠ [] ∧ rest.all Char.isDigit then
      some (rest.foldl (fun a c => a * 10 + digitVal c) 0)
    else none
  | _ => none

/-- Spec-side: "the maximum numeric suffix among existing TKT-<n> ids
(0 if none exist)". -/
def specMaxSuffix (ids : List String) : Nat :=
  ids.foldr (fun s m => max ((parseTKT s).getD 0) m) 0

/-- Spec-side: case-insensitive (ASCII) substring containment — `pat` occurs
literally inside `hay` comparing lowercased characters. -/
def infixCI (pat hay : String) : Bool :=
  (List.range ((hay.data.map Char.toLower).length + 1)).any
    (fun n => (pat.data.map Char.toLower).isPrefixOf ((hay.data.map Char.toLower).drop n))

/-- Spec-side: the claim's filter semantics as written — pipeline/status
exact match unless `"all"` or absent, search a case-insensitive substring
match against title OR description OR customer OR id. -/
def claimMatches (pipeline status search : Option String) (t : Ticket) : Bool :=
  (match pipeline with
   | none => true
   | some p => if p = "all" then true else decide (t.pipeline = p)) &&
  (match status with
   | none => true
   | some s => if s = "all" then true else decide (t.status = s)) &&
  (match search with
   | none => true
   | some q =>
     infixCI q t.title || infixCI q t.description ||
     (match t.customer with
      | none => false
      | some c => infixCI q c) ||
     infixCI q t.id)

/-- Spec-side, amended: as `claimMatches` but an empty pipeline/status/search
parameter is inert (JS truthiness), and only wildcard-free searches are
claimed to be substring matches (enforced by the theorem's hypothesis). -/
def claimMatchesAmended (pipeline status search : Option String) (t : Ticket) : Bool :=
  (match pipeline with
   | none => true
   | some p => if p = "" ∨ p = "all" then true else decide (t.pipeline = p)) &&
  (match status with
   | none => true
   | some s => if s = "" ∨ s = "all" then true else decide (t.status = s)) &&
  (match search with
   | none => true
   | some q =>
     if q = "" then true
     else
       infixCI q t.title || infixCI q t.description ||
       (match t.customer with
        | none => false
        | some c => infixCI q c) ||
       infixCI q t.id)

/-! ## Lemmas about the stable insertion sort -/

theorem mem_insertBy {le : α → α → Bool} {a x : α} {l : List α} :
    x ∈ insertBy le a l ↔ x = a ∨ x ∈ l := by
  induction l with
  | nil => simp [insertBy]
  | cons y ys ih =>
    by_cases h : le a y = true
    · simp [insertBy, h]
    · simp only [insertBy, if_neg h, List.mem_cons, ih]
      tauto

theorem mem_sortBy {le : α → α → Bool} {x : α} {l : List α} :
    x ∈ sortBy le l ↔ x ∈ l := by
  induction l with
  | nil => simp [sortBy]
  | cons y ys ih =>
    simp only [sortBy, mem_insertBy, List.mem_cons, ih]

/-- Inserting into a list sorted by non-increasing `created_at` keeps it
sorted, for ticket rows. -/
theorem pairwise_insertBy_desc {a : Ticket} {l : List Ticket}
    (h : l.Pairwise (fun x y => y.created_at ≤ x.created_at)) :
    (insertBy (fun x y => decide (y.created_at ≤ x.created_at)) a l).Pairwise
      (fun x y => y.created_at ≤ x.created_at) := by
  induction l with
  | nil => simp [insertBy]
  | cons y ys ih =>
    rcases List.pairwise_cons.mp h with ⟨hy, hys⟩
    by_cases hle : y.created_at ≤ a.created_at
    · simp only [insertBy, decide_eq_true_eq, if_pos hle]
      refine List.pairwise_cons.mpr ⟨?_, h⟩
      intro z hz
      rcases List.mem_cons.mp hz with rfl | hz
      · exact hle
      · exact le_trans (hy z hz) hle
    · simp only [insertBy, decide_eq_true_eq, if_neg hle]
      refine List.pairwise_cons.mpr ⟨?_, ih hys⟩
      intro z hz
      rcases mem_insertBy.mp hz with rfl | hz
      · exact le_of_not_le hle
      · exact hy z hz

/-- `listTickets` output is sorted by `created_at` descending. -/
theorem pairwise_sortTicketsDesc (l : List Ticket) :
    (sortTicketsDesc l).Pairwise (fun x y => y.created_at ≤ x.created_at) := by
  induction l with
  | nil => simp [sortTicketsDesc, sortBy]
  | cons y ys ih =>
    simpa [sortTicketsDesc, sortBy] using pairwise_insertBy_desc (a := y) ih

/-- Strict ordering on timeline rows: by `created_at`, ties by `id`. -/
def tlLex (a b : TimelineEntry) : Prop :=
  a.created_at < b.created_at ∨ (a.created_at = b.created_at ∧ a.id < b.id)

instance : DecidableRel tlLex := fun a b => by
  unfold tlLex; infer_instance

/-- Stability of the insertion step: inserting an entry whose `id` is below
every `id` in a `tlLex`-sorted list (by `created_at` alone) yields a
`tlLex`-sorted list. -/
theorem pairwise_insertBy_tlLex {a : TimelineEntry} {l : List TimelineEntry}
    (hid : ∀ y ∈ l, a.id < y.id) (h : l.Pairwise tlLex) :
    (insertBy (fun x y => decide (x.created_at ≤ y.created_at)) a l).Pairwise tlLex := by
  induction l with
  | nil => simp [insertBy]
  | cons y ys ih =>
    rcases List.pairwise_cons.mp h with ⟨hy, hys⟩
    by_cases hle : a.created_at ≤ y.created_at
    · simp only [insertBy, decide_eq_true_eq, if_pos hle]
      refine List.pairwise_cons.mpr ⟨?_, h⟩
      intro z hz
      rcases List.mem_cons.mp hz with rfl | hz
      · rcases lt_or_eq_of_le hle with hlt | heq
        · exact Or.inl hlt
        · exact Or.inr ⟨heq, hid z (List.mem_cons_self z ys)⟩
      · rcases hy z hz with hlt | ⟨heq, _⟩
        · rcases lt_or_eq_of_le hle with h2 | h2
          · exact Or.inl (lt_trans h2 hlt)
          · exact Or.inl (h2 ▸ hlt)
        · rcases lt_or_eq_of_le (heq ▸ hle) with h2 | h2
          · exact Or.inl h2
          · exact Or.inr ⟨h2, hid z (List.mem_cons_of_mem y hz)⟩
    · simp only [insertBy, decide_eq_true_eq, if_neg hle]
      have hlt : y.created_at < a.created_at := lt_of_not_le hle
      refine List.pairwise_cons.mpr ⟨?_, ih (fun z hz => hid z (List.mem_cons_of_mem y hz)) hys⟩
      intro z hz
      rcases mem_insertBy.mp hz with rfl | hz
      · exact Or.inl hlt
      · exact hy z hz

/-- Sorting timeline rows that are listed in ascending-`id` (insertion)
order by `created_at` produces a `tlLex`-sorted list: equal timestamps keep
ascending `id`. -/
theorem pairwise_sortTimelineAsc {l : List TimelineEntry}
    (hid : l.Pairwise (fun x y => x.id < y.id)) :
    (sortTimelineAsc l).Pairwise tlLex := by
  induction l with
  | nil => simp [sortTimelineAsc, sortBy]
  | cons y ys ih =>
    rcases List.pairwise_cons.mp hid with ⟨hy, hys⟩
    simp only [sortTimelineAsc, sortBy] at ih ⊢
    exact pairwise_insertBy_tlLex (fun z hz => hy z (mem_sortBy.mp hz)) (ih hys)

/-! ## Lemmas about decimal rendering and identifier parsing -/

theorem digitVal_digChar {d : Nat} (h : d < 10) : digitVal (digChar d) = d := by
  interval_cases d <;> decide

theorem isDigit_digChar {d : Nat} (h : d < 10) : (digChar d).isDigit = true := by
  interval_cases d <;> decide

theorem natCharsFuel_ne_nil {f n : Nat} (h : n < f) : natCharsFuel f n ≠ [] := by
  match f with
  | g + 1 =>
    by_cases h10 : n < 10 <;> simp [natCharsFuel, h10]

theorem natCharsFuel_all_digits {f n : Nat} (h : n < f) :
    ∀ c ∈ natCharsFuel f n, c.isDigit = true := by
  induction f generalizing n with
  | zero => omega
  | succ g ih =>
    by_cases h10 : n < 10
    · simp [natCharsFuel, h10, isDigit_digChar h10]
    · have hn : 0 < n := by omega
      have hlt : n / 10 < n := Nat.div_lt_self hn (by omega)
      have hf : n / 10 < g := by omega
      simp only [natCharsFuel, if_neg h10, List.mem_append, List.mem_singleton]
      rintro c (hc | rfl)
      · exact ih hf c hc
      · exact isDigit_digChar (Nat.mod_lt n (by omega))

theorem foldl_natCharsFuel {f n : Nat} (h : n < f) (a : Nat) :
    (natCharsFuel f n).foldl (fun a c => a * 10 + digitVal c) a =
      a * 10 ^ (natCharsFuel f n).length + n := by
  induction f generalizing n a with
  | zero => omega
  | succ g ih =>
    by_cases h10 : n < 10
    · simp [natCharsFuel, h10, digitVal_digChar h10]
    · have hn : 0 < n := by omega
      have hlt : n / 10 < n := Nat.div_lt_self hn (by omega)
      have hf : n / 10 < g := by omega
      simp only [natCharsFuel, if_neg h10, List.foldl_append, List.foldl_cons,
        List.foldl_nil, List.length_append, List.length_cons, List.length_nil]
      rw [ih hf a, digitVal_digChar (Nat.mod_lt n (by omega))]
      have hdm := Nat.div_add_mod n 10
      have hpow : 10 ^ ((natCharsFuel g (n / 10)).length + (0 + 1)) =
          10 ^ (natCharsFuel g (n / 10)).length * 10 := by
        simp [pow_succ]
      rw [hpow]
      ring_nf
      omega

theorem foldl_replicate_zeroChar (k : Nat) :
    (List.replicate k '0').foldl (fun a c => a * 10 + digitVal c) 0 = 0 := by
  induction k with
  | zero => rfl
  | succ m ih => simpa [List.replicate_succ, digitVal] using ih

theorem takeWhile_of_all {p : Char → Bool} {l : List Char}
    (h : ∀ c ∈ l, p c = true) : l.takeWhile p = l := by
  induction l with
  | nil => rfl
  | cons c cs ih =>
    simp only [List.takeWhile_cons, h c (List.mem_cons_self c cs)]
    simpa using ih (fun d hd => h d (List.mem_cons_of_mem c hd))

/-- All characters of the zero-padded decimal rendering are digits. -/
theorem padded_all_digits (n : Nat) :
    ∀ c ∈ padStart3 (natChars n), c.isDigit = true := by
  intro c hc
  rcases List.mem_append.mp hc with hc | hc
  · have := List.eq_of_mem_replicate hc
    subst this; decide
  · exact natCharsFuel_all_digits (Nat.lt_succ_self n) c hc

/-- Parsing the zero-padded decimal rendering recovers the number. -/
theorem foldl_padded (n : Nat) :
    (padStart3 (natChars n)).foldl (fun a c => a * 10 + digitVal c) 0 = n := by
  unfold padStart3
  rw [List.foldl_append, foldl_replicate_zeroChar]
  simpa using foldl_natCharsFuel (Nat.lt_succ_self n) 0

/-- `CAST(SUBSTR(id, 5) AS INTEGER)` of a canonical identifier is its
numeric suffix. -/
theorem castSuffix_tktId (n : Nat) : castSuffix (tktId n) = n := by
  show leadingNat ((tktId n).data.drop 4) = n
  have hdata : (tktId n).data = 'T' :: 'K' :: 'T' :: '-' :: padStart3 (natChars n) := rfl
  rw [hdata]
  show leadingNat (padStart3 (natChars n)) = n
  unfold leadingNat
  rw [takeWhile_of_all (padded_all_digits n)]
  exact foldl_padded n

/-- The strict spec-side parser also recovers the suffix of a canonical id. -/
theorem parseTKT_tktId (n : Nat) : parseTKT (tktId n) = some n := by
  have hne : padStart3 (natChars n) ≠ [] := by
    unfold padStart3
    intro h
    rcases List.append_eq_nil.mp h with ⟨_, h2⟩
    exact natCharsFuel_ne_nil (Nat.lt_succ_self n) h2
  have hall : (padStart3 (natChars n)).all Char.isDigit = true :=
    List.all_eq_true.mpr (padded_all_digits n)
  show parseTKT (String.mk ('T' :: 'K' :: 'T' :: '-' :: padStart3 (natChars n))) = some n
  unfold parseTKT
  simp only [if_pos (And.intro hne hall)]
  exact congrArg some (foldl_padded n)

/-- On a store whose ids are all canonical, the SQL `MAX(CAST(...))`
aggregate agrees with the spec-side maximum over parsed `TKT-<n>` ids. -/
theorem maxSuffix_eq_specMaxSuffix {ts : List Ticket}
    (hc : ∀ t ∈ ts, ∃ n, t.id = tktId n) :
    maxSuffix ts = specMaxSuffix (ts.map Ticket.id) := by
  induction ts with
  | nil => rfl
  | cons t rest ih =>
    rcases hc t (List.mem_cons_self t rest) with ⟨n, hn⟩
    have ihr := ih (fun u hu => hc u (List.mem_cons_of_mem t hu))
    simp only [maxSuffix, specMaxSuffix, List.map_cons, List.foldr_cons, hn,
      castSuffix_tktId, parseTKT_tktId, Option.getD_some]
    simpa [maxSuffix, specMaxSuffix] using congrArg (max n) ihr

/-- Every parsed suffix in the list is bounded by `specMaxSuffix`. -/
theorem le_specMaxSuffix {ids : List String} {s : String} (hs : s ∈ ids)
    {k : Nat} (hk : parseTKT s = some k) : k ≤ specMaxSuffix ids := by
  induction ids with
  | nil => cases hs
  | cons x xs ih =>
    rcases List.mem_cons.mp hs with rfl | hs
    · simp only [specMaxSuffix, List.foldr_cons, hk, Option.getD_some]
      exact le_max_left _ _
    · simp only [specMaxSuffix, List.foldr_cons]
      exact le_trans (ih hs) (le_max_right _ _)

/-! ## `LIKE '%q%'` is substring matching for wildcard-free `q` -/

theorem anyDrop_iff {f : List Char → Bool} {l : List Char} :
    anyDrop f l = true ↔ ∃ n, f (l.drop n) = true := by
  induction l with
  | nil =>
    constructor
    · intro h; exact ⟨0, h⟩
    · rintro ⟨n, h⟩; simpa using h
  | cons c rest ih =>
    simp only [anyDrop, Bool.or_eq_true, ih]
    constructor
    · rintro (h | ⟨n, h⟩)
      · exact ⟨0, h⟩
      · exact ⟨n + 1, h⟩
    · rintro ⟨n, h⟩
      cases n with
      | zero => exact Or.inl h
      | succ m => exact Or.inr ⟨m, h⟩

theorem likeM_nil_anyDrop (hs : List Char) : anyDrop (likeM []) hs = true :=
  anyDrop_iff.mpr ⟨hs.length, by simp [likeM]⟩

theorem likeM_cons_ne {c : Char} (hc1 : c ≠ '%') (hc2 : c ≠ '_')
    (ps hs : List Char) :
    likeM (c :: ps) hs =
      (match hs with
       | [] => false
       | h :: hs2 => decide (c.toLower = h.toLower) && likeM ps hs2) := by
  simp [likeM, hc1, hc2]

/-- For a wildcard-free `s`, the pattern `s ++ "%"` matches exactly the
texts whose lowercasing starts with the lowercasing of `s`. -/
theorem likeM_append_pct {s : List Char} (hw : ∀ c ∈ s, c ≠ '%' ∧ c ≠ '_') :
    ∀ hs : List Char,
      likeM (s ++ ['%']) hs = (s.map Char.toLower).isPrefixOf (hs.map Char.toLower) := by
  induction s with
  | nil =>
    intro hs
    simp only [List.nil_append, List.map_nil, List.isPrefixOf]
    simpa [likeM] using likeM_nil_anyDrop hs
  | cons c s2 ih =>
    intro hs
    rcases hw c (List.mem_cons_self c s2) with ⟨hc1, hc2⟩
    rw [List.cons_append, likeM_cons_ne hc1 hc2]
    cases hs with
    | nil => simp [List.isPrefixOf]
    | cons h hs2 =>
      show (decide (c.toLower = h.toLower) && likeM (s2 ++ ['%']) hs2) = _
      rw [ih (fun d hd => hw d (List.mem_cons_of_mem c hd)) hs2]
      simp only [List.map_cons, List.isPrefixOf]
      by_cases he : c.toLower = h.toLower <;> simp [he]

theorem infixCI_iff {pat hay : String} :
    infixCI pat hay = true ↔
      ∃ n, (pat.data.map Char.toLower).isPrefixOf
        ((hay.data.map Char.toLower).drop n) = true := by
  unfold infixCI
  simp only [List.any_eq_true, List.mem_range]
  constructor
  · rintro ⟨n, _, h⟩; exact ⟨n, h⟩
  · rintro ⟨n, h⟩
    by_cases hn : n < (hay.data.map Char.toLower).length + 1
    · exact ⟨n, hn, h⟩
    · refine ⟨(hay.data.map Char.toLower).length, by omega, ?_⟩
      rw [List.drop_eq_nil_of_le le_rfl]
      rw [List.drop_eq_nil_of_le (by omega)] at h
      exact h

/-- `column LIKE '%q%'` coincides with case-insensitive substring search when
`q` contains neither `%` nor `_`. -/
theorem sqlLike_eq_infixCI {q : String} (hw : ∀ c ∈ q.data, c ≠ '%' ∧ c ≠ '_')
    (hay : String) : sqlLike ("%" ++ q ++ "%") hay = infixCI q hay := by
  rw [Bool.eq_iff_iff]
  have hdata : ("%" ++ q ++ "%").data = '%' :: (q.data ++ ['%']) := by
    simp [String.data_append]
  unfold sqlLike
  rw [hdata]
  have hpct : likeM ('%' :: (q.data ++ ['%'])) hay.data =
      anyDrop (likeM (q.data ++ ['%'])) hay.data := by
    simp [likeM]
  rw [hpct, anyDrop_iff, infixCI_iff]
  constructor
  · rintro ⟨n, h⟩
    refine ⟨n, ?_⟩
    rw [likeM_append_pct hw] at h
    rwa [List.map_drop] at h
  · rintro ⟨n, h⟩
    refine ⟨n, ?_⟩
    rw [likeM_append_pct hw, List.map_drop]
    exact h

/-- A concrete ticket row used by witnesses and counterexamples. -/
def sampleTicket : Ticket :=
  { id := "TKT-001", title := "hello", description := "world", customer := none,
    pipeline := "sales", status := "new", priority := "high", assigned_to := none,
    created_by := "Admin", created_at := 0, updated_at := 0 }

/-- A store holding just `sampleTicket` and no timeline entries. -/
def oneTicketDB : DB := { tickets := [sampleTicket], timeline := [], nextTimelineId := 1 }

/-! ## Scenario states for identifier reuse -/

/-- Create a first ticket in an empty store. -/
def reuseStep1 : DB × Except Err Ticket :=
  createTicket ⟨[], [], 1⟩ 0 "Admin" (some "Ticket A") (some "first") none
    (some "sales") (some "high") none

/-- Create a second ticket. -/
def reuseStep2 : DB × Except Err Ticket :=
  createTicket reuseStep1.1 1 "Admin" (some "Ticket B") (some "second") none
    (some "sales") (some "high") none

/-- Delete the ticket with the highest suffix. -/
def reuseStep3 : DB × Except Err Unit := deleteTicket reuseStep2.1 "TKT-002"

/-- Create again: the allocator derives the id from the surviving tickets. -/
def reuseStep4 : DB × Except Err Ticket :=
  createTicket reuseStep3.1 2 "Admin" (some "Ticket C") (some "third") none
    (some "sales") (some "high") none

end VagaTickets

deriving instance DecidableEq for Except

namespace VagaTickets

/-! ## Statistics lemma -/

/-- The four per-pipeline active counts add up to the count of active
tickets whose pipeline is one of the four enumerated values (each ticket has
exactly one pipeline, so the four predicates are mutually exclusive). -/
theorem countP_pipeline_sum (l : List Ticket) :
    l.countP (fun t => decide (t.pipeline = "marketing" ∧ ¬ t.status = "completed")) +
    l.countP (fun t => decide (t.pipeline = "sales" ∧ ¬ t.status = "completed")) +
    l.countP (fun t => decide (t.pipeline = "orders" ∧ ¬ t.status = "completed")) +
    l.countP (fun t => decide (t.pipeline = "support" ∧ ¬ t.status = "completed")) =
    l.countP (fun t => decide ((t.pipeline = "marketing" ∨ t.pipeline = "sales" ∨
      t.pipeline = "orders" ∨ t.pipeline = "support") ∧ ¬ t.status = "completed")) := by
  induction l with
  | nil => rfl
  | cons t rest ih =>
    simp only [List.countP_cons, decide_eq_true_eq]
    by_cases hm : t.pipeline = "marketing" <;> by_cases hs : t.pipeline = "sales" <;>
      by_cases ho : t.pipeline = "orders" <;> by_cases hsu : t.pipeline = "support" <;>
      by_cases hst : t.status = "completed" <;>
      simp_all <;> omega

/-! ## Claim theorems -/

/-- C5: `getStats` returns, for each of marketing, sales, orders, support,
the number of stored tickets with that pipeline and status different from
`"completed"`; `total` equals the number of all stored tickets regardless of
status; and the sum of the four pipeline counts equals the count of tickets
whose pipeline is one of the four enumerated values and whose status is not
`"completed"`. -/
theorem claim5_stats (db : DB) :
    (getStats db).marketing =
      db.tickets.countP (fun t => decide (t.pipeline = "marketing" ∧ ¬ t.status = "completed")) ∧
    (getStats db).sales =
      db.tickets.countP (fun t => decide (t.pipeline = "sales" ∧ ¬ t.status = "completed")) ∧
    (getStats db).orders =
      db.tickets.countP (fun t => decide (t.pipeline = "orders" ∧ ¬ t.status = "completed")) ∧
    (getStats db).support =
      db.tickets.countP (fun t => decide (t.pipeline = "support" ∧ ¬ t.status = "completed")) ∧
    (getStats db).total = db.tickets.length ∧
    (getStats db).marketing + (getStats db).sales + (getStats db).orders + (getStats db).support =
      db.tickets.countP (fun t => decide ((t.pipeline = "marketing" ∨ t.pipeline = "sales" ∨
        t.pipeline = "orders" ∨ t.pipeline = "support") ∧ ¬ t.status = "completed")) :=
  ⟨rfl, rfl, rfl, rfl, rfl, countP_pipeline_sum db.tickets⟩

/-- C7: `createTicket` fails with ValidationError whenever title,
description, pipeline, or priority is missing or empty, writing nothing;
when all four are supplied non-empty it creates the ticket with status
`"new"`, the allocator id, and both timestamps set to now. -/
theorem claim7_create (db : DB) (now : Nat) (actor : String)
    (title description customer pipeline priority assigned_to : Option String) :
    ((falsy title = true ∨ falsy description = true ∨ falsy pipeline = true ∨
        falsy priority = true) →
      createTicket db now actor title description customer pipeline priority assigned_to =
        (db, Except.error Err.validationError)) ∧
    (falsy title = false → falsy description = false → falsy pipeline = false →
      falsy priority = false →
      ∃ t, createTicket db now actor title description customer pipeline priority assigned_to =
          ({ tickets := db.tickets ++ [t],
             timeline := db.timeline ++
               [{ id := db.nextTimelineId, ticket_id := t.id, action := "Ticket created",
                  user := actor, created_at := now }],
             nextTimelineId := db.nextTimelineId + 1 }, Except.ok t) ∧
        t.status = "new" ∧ t.id = nextTicketId db.tickets ∧
        t.created_at = now ∧ t.updated_at = now) := by
  constructor
  · intro h
    have hc : (falsy title || falsy description || falsy pipeline || falsy priority) = true := by
      rcases h with h | h | h | h <;> simp [h]
    simp [createTicket, hc]
  · intro h1 h2 h3 h4
    have hc : (falsy title || falsy description || falsy pipeline || falsy priority) = false := by
      simp [h1, h2, h3, h4]
    refine ⟨{ id := nextTicketId db.tickets, title := title.getD "",
              description := description.getD "", customer := customer,
              pipeline := pipeline.getD "", status := "new", priority := priority.getD "",
              assigned_to := assigned_to, created_by := actor,
              created_at := now, updated_at := now }, ?_, rfl, rfl, rfl, rfl⟩
    simp [createTicket, hc]

/-- C7 witness: on an empty store, a create without a title is rejected and
a fully supplied create yields a `"new"` ticket with id `TKT-001` and both
timestamps equal to the current time. -/
theorem claim7_create_witness :
    (createTicket ⟨[], [], 1⟩ 7 "Admin" none (some "D") none (some "marketing") (some "high") none =
      (⟨[], [], 1⟩, Except.error Err.validationError)) ∧
    (∃ t, (createTicket ⟨[], [], 1⟩ 7 "Admin" (some "T") (some "D") none (some "marketing")
        (some "high") none).2 = Except.ok t ∧
      t.status = "new" ∧ t.id = "TKT-001" ∧ t.created_at = 7 ∧ t.updated_at = 7) := by
  constructor
  · exact (claim7_create ⟨[], [], 1⟩ 7 "Admin" none (some "D") none (some "marketing")
      (some "high") none).1 (Or.inl (by decide))
  · obtain ⟨t, heq, hst, hid, hca, hua⟩ :=
      (claim7_create ⟨[], [], 1⟩ 7 "Admin" (some "T") (some "D") none (some "marketing")
        (some "high") none).2 (by decide) (by decide) (by decide) (by decide)
    refine ⟨t, ?_, hst, ?_, hca, hua⟩
    · rw [heq]
    · rw [hid]; decide

/-- C3: deleting an existing ticket succeeds and removes it together with
every timeline entry carrying its id; afterwards `getTicket` reports
NotFound and the ticket's timeline is empty; deleting an id with no stored
ticket returns NotFound. -/
theorem claim3_delete_cascade (db : DB) (tid : String) :
    ((∃ t ∈ db.tickets, t.id = tid) →
      (deleteTicket db tid).2 = Except.ok () ∧
      (deleteTicket db tid).1.tickets = db.tickets.filter (fun t => decide (¬ t.id = tid)) ∧
      (deleteTicket db tid).1.timeline = db.timeline.filter (fun e => decide (¬ e.ticket_id = tid)) ∧
      getTicket (deleteTicket db tid).1 tid = none ∧
      (deleteTicket db tid).1.timeline.filter (fun e => decide (e.ticket_id = tid)) = []) ∧
    ((∀ t ∈ db.tickets, ¬ t.id = tid) →
      (deleteTicket db tid).2 = Except.error Err.notFound) := by
  constructor
  · rintro ⟨t0, ht0, hid⟩
    have hany : db.tickets.any (fun t => decide (t.id = tid)) = true := by
      simp only [List.any_eq_true, decide_eq_true_eq]
      exact ⟨t0, ht0, hid⟩
    have hfind : ((deleteTicket db tid).1.tickets.find? (fun t => decide (t.id = tid))) = none := by
      apply List.find?_eq_none.mpr
      intro x hx
      simp only [deleteTicket, hany, if_pos] at hx
      have := (List.mem_filter.mp hx).2
      simpa using this
    refine ⟨by simp [deleteTicket, hany], by simp [deleteTicket, hany],
            by simp [deleteTicket, hany], ?_, ?_⟩
    · simp only [getTicket, hfind]
    · simp only [deleteTicket, hany, if_pos]
      apply List.filter_eq_nil_iff.mpr
      intro e he
      have := (List.mem_filter.mp he).2
      simpa using this
  · intro h
    have hany : db.tickets.any (fun t => decide (t.id = tid)) = false := by
      rw [Bool.eq_false_iff]
      intro hc
      rw [List.any_eq_true] at hc
      obtain ⟨x, hx, he⟩ := hc
      exact h x hx (by simpa using he)
    simp [deleteTicket, hany]

/-- C3 witness: deleting `TKT-002` from the two-ticket reuse scenario store
succeeds, leaves no trace of it, and deleting it again reports NotFound. -/
theorem claim3_delete_cascade_witness :
    (deleteTicket reuseStep2.1 "TKT-002").2 = Except.ok () ∧
    getTicket (deleteTicket reuseStep2.1 "TKT-002").1 "TKT-002" = none ∧
    (deleteTicket reuseStep2.1 "TKT-002").1.timeline.filter
      (fun e => decide (e.ticket_id = "TKT-002")) = [] ∧
    (deleteTicket (deleteTicket reuseStep2.1 "TKT-002").1 "TKT-002").2 =
      Except.error Err.notFound := by
  have h1 := (claim3_delete_cascade reuseStep2.1 "TKT-002").1
    (by refine ⟨reuseStep2.2.toOption.getD ⟨"", "", "", none, "", "", "", none, "", 0, 0⟩, ?_, ?_⟩ <;> decide)
  have h2 := (claim3_delete_cascade (deleteTicket reuseStep2.1 "TKT-002").1 "TKT-002").2
    (by decide)
  exact ⟨h1.1, h1.2.2.2.1, h1.2.2.2.2, h2⟩

/-- C6: with a field outside the allow-list, or a missing field or value,
`updateTicket` fails with ValidationError and changes nothing; with an
allowed field and no stored ticket under the id it returns NotFound. -/
theorem claim6_update_allowlist (db : DB) (now : Nat) (actor tid : String)
    (field value oldValue : Option String) :
    ((field = none ∨ (∃ f, field = some f ∧ f ∉ allowedFields) ∨ value = none) →
      updateTicket db now actor tid field value oldValue =
        (db, Except.error Err.validationError)) ∧
    (∀ f v, field = some f → f ∈ allowedFields → value = some v →
      (∀ t ∈ db.tickets, ¬ t.id = tid) →
      updateTicket db now actor tid field value oldValue =
        (db, Except.error Err.notFound)) := by
  constructor
  · intro h
    rcases h with rfl | ⟨f, rfl, hf⟩ | rfl
    · simp [updateTicket, falsy]
    · by_cases hf0 : f = ""
      · simp [updateTicket, falsy, hf0]
      · by_cases hv : value = none
        · simp [updateTicket, hv]
        · simp [updateTicket, falsy, hf0, hv, hf]
    · simp [updateTicket]
  · intro f v hf hmem hv hno
    subst hf; subst hv
    have hf0 : ¬ f = "" := by
      intro h
      subst h
      simp [allowedFields] at hmem
    have hfind : db.tickets.find? (fun t => decide (t.id = tid)) = none :=
      List.find?_eq_none.mpr (fun x hx => by simpa using hno x hx)
    simp [updateTicket, falsy, hf0, hmem, hfind]

/-- C6 witness: on a one-ticket store, updating a bogus field and updating
with a missing value are rejected without touching the store, and updating
an allowed field of an absent id reports NotFound. -/
theorem claim6_update_allowlist_witness :
    updateTicket oneTicketDB 5 "Admin" "TKT-001" (some "bogus") (some "x") none =
      (oneTicketDB, Except.error Err.validationError) ∧
    updateTicket oneTicketDB 5 "Admin" "TKT-001" (some "status") none none =
      (oneTicketDB, Except.error Err.validationError) ∧
    updateTicket oneTicketDB 5 "Admin" "TKT-999" (some "status") (some "pending") none =
      (oneTicketDB, Except.error Err.notFound) := by
  refine ⟨?_, ?_, ?_⟩
  · exact (claim6_update_allowlist oneTicketDB 5 "Admin" "TKT-001" (some "bogus") (some "x")
      none).1 (Or.inr (Or.inl ⟨"bogus", rfl, by decide⟩))
  · exact (claim6_update_allowlist oneTicketDB 5 "Admin" "TKT-001" (some "status") none
      none).1 (Or.inr (Or.inr rfl))
  · exact (claim6_update_allowlist oneTicketDB 5 "Admin" "TKT-999" (some "status")
      (some "pending") none).2 "status" "pending" rfl (by decide) rfl (by decide)

/-- C4 (amended): a ValidationError or NotFound from `createTicket`,
`updateTicket` or `addTimelineEntry` leaves the store untouched; a NotFound
from `deleteTicket` leaves the tickets untouched but has already removed
every timeline entry under the requested id (possible only for orphans). -/
theorem claim4_failure_purity (db : DB) (now : Nat) (actor : String) :
    (∀ title description customer pipeline priority assigned_to db2 e,
      createTicket db now actor title description customer pipeline priority assigned_to =
        (db2, Except.error e) → db2 = db) ∧
    (∀ tid field value oldValue db2 e,
      updateTicket db now actor tid field value oldValue = (db2, Except.error e) →
      db2 = db) ∧
    (∀ tid action user db2 e,
      addTimelineEntry db now actor tid action user = (db2, Except.error e) → db2 = db) ∧
    (∀ tid db2 e, deleteTicket db tid = (db2, Except.error e) →
      db2.tickets = db.tickets ∧
      db2.timeline = db.timeline.filter (fun en => decide (¬ en.ticket_id = tid)) ∧
      db2.nextTimelineId = db.nextTimelineId) := by
  refine ⟨?_, ?_, ?_, ?_⟩
  · intro title description customer pipeline priority assigned_to db2 e h
    unfold createTicket at h
    split at h <;>
      (simp only [Prod.mk.injEq] at h
       first
       | exact h.1.symm
       | exact Except.noConfusion h.2)
  · intro tid field value oldValue db2 e h
    unfold updateTicket at h
    split at h
    · simp only [Prod.mk.injEq] at h
      exact h.1.symm
    · dsimp only at h
      split at h <;> (try split at h) <;>
        (simp only [Prod.mk.injEq] at h
         first
         | exact h.1.symm
         | exact Except.noConfusion h.2)
  · intro tid action user db2 e h
    unfold addTimelineEntry at h
    split at h <;> dsimp only at h <;> split at h <;>
      (simp only [Prod.mk.injEq] at h
       first
       | exact h.1.symm
       | exact Except.noConfusion h.2)
  · intro tid db2 e h
    unfold deleteTicket at h
    split at h
    · simp only [Prod.mk.injEq] at h
      exact Except.noConfusion h.2
    · simp only [Prod.mk.injEq] at h
      refine ⟨?_, ?_, ?_⟩ <;> rw [← h.1]

/-- C4 witness: concrete failing calls of all four operations, each leaving
the store as the amended claim describes. -/
theorem claim4_failure_purity_witness :
    (createTicket oneTicketDB 3 "Admin" none none none none none none).1 = oneTicketDB ∧
    (updateTicket oneTicketDB 3 "Admin" "TKT-001" (some "bogus") (some "x") none).1 =
      oneTicketDB ∧
    (addTimelineEntry oneTicketDB 3 "Admin" "TKT-001" none none).1 = oneTicketDB ∧
    (deleteTicket oneTicketDB "TKT-999").1.tickets = oneTicketDB.tickets := by
  have hc := (claim4_failure_purity oneTicketDB 3 "Admin").1 none none none none none none
    (createTicket oneTicketDB 3 "Admin" none none none none none none).1
    Err.validationError (by decide)
  have hu := (claim4_failure_purity oneTicketDB 3 "Admin").2.1 "TKT-001" (some "bogus")
    (some "x") none
    (updateTicket oneTicketDB 3 "Admin" "TKT-001" (some "bogus") (some "x") none).1
    Err.validationError (by decide)
  have ha := (claim4_failure_purity oneTicketDB 3 "Admin").2.2.1 "TKT-001" none none
    (addTimelineEntry oneTicketDB 3 "Admin" "TKT-001" none none).1
    Err.validationError (by decide)
  have hd := (claim4_failure_purity oneTicketDB 3 "Admin").2.2.2 "TKT-999"
    (deleteTicket oneTicketDB "TKT-999").1 Err.notFound (by decide)
  exact ⟨hc, hu, ha, hd.1⟩

/-- C4 counterexample: `addTimelineEntry` can create an entry for an id with
no stored ticket; `deleteTicket` on that id then returns NotFound and yet
removes the entry, so a NotFound result does not always leave the stored
state unchanged. -/
theorem claim4_counterexample :
    (addTimelineEntry ⟨[], [], 1⟩ 0 "Admin" "TKT-001" (some "note") none).2.toOption.isSome =
      true ∧
    (addTimelineEntry ⟨[], [], 1⟩ 0 "Admin" "TKT-001" (some "note") none).1.timeline.length =
      1 ∧
    (deleteTicket (addTimelineEntry ⟨[], [], 1⟩ 0 "Admin" "TKT-001" (some "note") none).1
      "TKT-001").2 = Except.error Err.notFound ∧
    (deleteTicket (addTimelineEntry ⟨[], [], 1⟩ 0 "Admin" "TKT-001" (some "note") none).1
      "TKT-001").1.timeline = [] := by
  decide

/-- C1 (amended): every successful mutation appends exactly one timeline
entry describing it — `"Ticket created"` for creation; for a field update
the `changed from` form when a non-empty `oldValue` is supplied and the
`updated to` form when `oldValue` is absent or empty; the field label table
is the fixed seven-field mapping. -/
theorem claim1_mutation_timeline (db : DB) (now : Nat) (actor tid : String) :
    (∀ title description customer pipeline priority assigned_to db2 t,
      createTicket db now actor title description customer pipeline priority assigned_to =
        (db2, Except.ok t) →
      db2.timeline = db.timeline ++
        [{ id := db.nextTimelineId, ticket_id := t.id, action := "Ticket created",
           user := actor, created_at := now }]) ∧
    (∀ field value oldValue f v db2 t, field = some f → value = some v →
      updateTicket db now actor tid field value oldValue = (db2, Except.ok t) →
      (∀ o, oldValue = some o → ¬ o = "" →
        db2.timeline = db.timeline ++
          [{ id := db.nextTimelineId, ticket_id := tid,
             action := fieldLabel f ++ " changed from \"" ++ o ++ "\" to \"" ++ v ++ "\"",
             user := actor, created_at := now }]) ∧
      ((oldValue = none ∨ oldValue = some "") →
        db2.timeline = db.timeline ++
          [{ id := db.nextTimelineId, ticket_id := tid,
             action := fieldLabel f ++ " updated to \"" ++ v ++ "\"",
             user := actor, created_at := now }])) ∧
    (fieldLabel "pipeline" = "Pipeline" ∧ fieldLabel "status" = "Status" ∧
     fieldLabel "priority" = "Priority" ∧ fieldLabel "assigned_to" = "Assigned To" ∧
     fieldLabel "title" = "Title" ∧ fieldLabel "description" = "Description" ∧
     fieldLabel "customer" = "Customer") := by
  refine ⟨?_, ?_, by decide⟩
  · intro title description customer pipeline priority assigned_to db2 t h
    unfold createTicket at h
    split at h
    · simp only [Prod.mk.injEq] at h
      exact Except.noConfusion h.2
    · simp only [Prod.mk.injEq, Except.ok.injEq] at h
      obtain ⟨h1, h2⟩ := h
      subst h2
      rw [← h1]
  · intro field value oldValue f v db2 t hf hv h
    subst hf; subst hv
    by_cases hf0 : f = ""
    · simp [updateTicket, falsy, hf0] at h
    · by_cases hmem : f ∈ allowedFields
      · cases hfind : db.tickets.find? (fun u => decide (u.id = tid)) with
        | none => simp [updateTicket, falsy, hf0, hmem, hfind] at h
        | some t0 =>
          have hff : (falsy (some f) || decide ((some v : Option String) = none)) = false := by
            simp [falsy, hf0]
          unfold updateTicket at h
          rw [hff] at h
          simp only [Bool.false_eq_true, if_false, hmem, if_true, hfind,
            Option.getD_some, Prod.mk.injEq, Except.ok.injEq] at h
          obtain ⟨h1, h2⟩ := h
          constructor
          · intro o ho hne
            subst ho
            rw [← h1]
            simp [updateAction, hne]
          · intro hcase
            rcases hcase with rfl | rfl
            · rw [← h1]
              simp [updateAction]
            · rw [← h1]
              simp [updateAction]
      · simp [updateTicket, falsy, hf0, hmem] at h

/-- C1 witness: concrete successful create and updates exhibiting all three
action forms on the one-ticket store. -/
theorem claim1_mutation_timeline_witness :
    (createTicket oneTicketDB 4 "Admin" (some "T2") (some "D2") none (some "orders")
        (some "low") none).1.timeline =
      [{ id := 1, ticket_id := "TKT-002", action := "Ticket created",
         user := "Admin", created_at := 4 }] ∧
    (updateTicket oneTicketDB 5 "Admin" "TKT-001" (some "status") (some "in-progress")
        (some "new")).1.timeline =
      [{ id := 1, ticket_id := "TKT-001",
         action := "Status changed from \"new\" to \"in-progress\"",
         user := "Admin", created_at := 5 }] ∧
    (updateTicket oneTicketDB 5 "Admin" "TKT-001" (some "status") (some "in-progress")
        none).1.timeline =
      [{ id := 1, ticket_id := "TKT-001", action := "Status updated to \"in-progress\"",
         user := "Admin", created_at := 5 }] := by
  refine ⟨?_, ?_, ?_⟩
  · have h := (claim1_mutation_timeline oneTicketDB 4 "Admin" "").1 (some "T2") (some "D2")
      none (some "orders") (some "low") none
      (createTicket oneTicketDB 4 "Admin" (some "T2") (some "D2") none (some "orders")
        (some "low") none).1
      ((createTicket oneTicketDB 4 "Admin" (some "T2") (some "D2") none (some "orders")
        (some "low") none).2.toOption.getD sampleTicket)
      (by decide)
    rw [h]
    decide
  · have h := ((claim1_mutation_timeline oneTicketDB 5 "Admin" "TKT-001").2.1
      (some "status") (some "in-progress") (some "new") "status" "in-progress"
      (updateTicket oneTicketDB 5 "Admin" "TKT-001" (some "status") (some "in-progress")
        (some "new")).1
      ((updateTicket oneTicketDB 5 "Admin" "TKT-001" (some "status") (some "in-progress")
        (some "new")).2.toOption.getD sampleTicket)
      rfl rfl (by decide)).1 "new" rfl (by decide)
    rw [h]
    decide
  · have h := ((claim1_mutation_timeline oneTicketDB 5 "Admin" "TKT-001").2.1
      (some "status") (some "in-progress") none "status" "in-progress"
      (updateTicket oneTicketDB 5 "Admin" "TKT-001" (some "status") (some "in-progress")
        none).1
      ((updateTicket oneTicketDB 5 "Admin" "TKT-001" (some "status") (some "in-progress")
        none).2.toOption.getD sampleTicket)
      rfl rfl (by decide)).2 (Or.inl rfl)
    rw [h]
    decide

/-- C1 counterexample: an update that supplies `oldValue` as the empty
string succeeds but records the `updated to` action, not the claimed
`changed from` action — JS truthiness treats the supplied `""` as absent. -/
theorem claim1_counterexample :
    (updateTicket oneTicketDB 5 "Admin" "TKT-001" (some "status") (some "in-progress")
        (some "")).2.toOption.isSome = true ∧
    (updateTicket oneTicketDB 5 "Admin" "TKT-001" (some "status") (some "in-progress")
        (some "")).1.timeline.map TimelineEntry.action =
      ["Status updated to \"in-progress\""] ∧
    ¬ ("Status updated to \"in-progress\"" =
        "Status changed from \"\" to \"in-progress\"") := by
  decide

/-- C2: on any store whose ids are canonical `TKT-<n>` identifiers, the
allocator returns `TKT-<max+1>` zero-padded to at least three digits (the
width growing naturally), `TKT-001` on an empty store, and a freshly created
ticket's numeric suffix strictly exceeds every suffix existing at creation
time. -/
theorem claim2_allocator (ts : List Ticket)
    (hc : ∀ t ∈ ts, ∃ n, t.id = tktId n) :
    nextTicketId ts = tktId (specMaxSuffix (ts.map Ticket.id) + 1) ∧
    parseTKT (nextTicketId ts) = some (specMaxSuffix (ts.map Ticket.id) + 1) ∧
    nextTicketId [] = "TKT-001" ∧
    (∀ t ∈ ts, ∀ k, parseTKT t.id = some k → k < specMaxSuffix (ts.map Ticket.id) + 1) ∧
    (∀ db now actor title description customer pipeline priority assigned_to db2 t,
      db.tickets = ts →
      createTicket db now actor title description customer pipeline priority assigned_to =
        (db2, Except.ok t) →
      parseTKT t.id = some (specMaxSuffix (ts.map Ticket.id) + 1)) := by
  have hmax := maxSuffix_eq_specMaxSuffix hc
  refine ⟨?_, ?_, by decide, ?_, ?_⟩
  · unfold nextTicketId
    rw [hmax]
  · unfold nextTicketId
    rw [hmax]
    exact parseTKT_tktId _
  · intro t ht k hk
    have := le_specMaxSuffix (List.mem_map_of_mem Ticket.id ht) hk
    omega
  · intro db now actor title description customer pipeline priority assigned_to db2 t hdb h
    unfold createTicket at h
    split at h
    · simp only [Prod.mk.injEq] at h
      exact Except.noConfusion h.2
    · simp only [Prod.mk.injEq, Except.ok.injEq] at h
      obtain ⟨h1, h2⟩ := h
      subst h2
      show parseTKT (nextTicketId db.tickets) = _
      rw [hdb]
      unfold nextTicketId
      rw [hmax]
      exact parseTKT_tktId _

/-- C2 witness: the allocator yields `TKT-001` on the empty store and
`TKT-002` (suffix 2) on the store holding only `TKT-001`. -/
theorem claim2_allocator_witness :
    nextTicketId [] = "TKT-001" ∧
    nextTicketId [sampleTicket] = "TKT-002" ∧
    parseTKT (nextTicketId [sampleTicket]) = some 2 := by
  have hc : ∀ t ∈ [sampleTicket], ∃ n, t.id = tktId n := by
    intro t ht
    simp only [List.mem_singleton] at ht
    subst ht
    exact ⟨1, by decide⟩
  have h1 := claim2_allocator [sampleTicket] hc
  refine ⟨(claim2_allocator [] (by simp)).2.2.1, ?_, ?_⟩
  · rw [h1.1]
    decide
  · exact h1.2.1.trans (by decide)

/-- C9: the timeline returned by `getTicket` is ordered ascending by
`created_at`, with ties among equal timestamps broken by ascending entry id
(insertion order), given that the stored timeline lists ids in ascending
(insertion) order. -/
theorem claim9_timeline_order (db : DB) (tid : String) (t : Ticket)
    (tl : List TimelineEntry)
    (hid : db.timeline.Pairwise (fun a b => a.id < b.id))
    (h : getTicket db tid = some (t, tl)) :
    tl.Pairwise tlLex := by
  unfold getTicket at h
  cases hfind : db.tickets.find? (fun u => decide (u.id = tid)) with
  | none =>
    rw [hfind] at h
    exact Option.noConfusion h
  | some t0 =>
    rw [hfind] at h
    simp only [Option.some.injEq, Prod.mk.injEq] at h
    obtain ⟨-, h2⟩ := h
    rw [← h2]
    exact pairwise_sortTimelineAsc (List.Pairwise.filter _ hid)

/-- C9 witness: two entries with the same timestamp come back in ascending
id order. -/
theorem claim9_timeline_order_witness :
    List.Pairwise tlLex
      [{ id := 1, ticket_id := "TKT-001", action := "a", user := "u", created_at := 5 },
       { id := 2, ticket_id := "TKT-001", action := "b", user := "u", created_at := 5 }] := by
  refine claim9_timeline_order
    ⟨[sampleTicket],
     [{ id := 1, ticket_id := "TKT-001", action := "a", user := "u", created_at := 5 },
      { id := 2, ticket_id := "TKT-001", action := "b", user := "u", created_at := 5 }], 3⟩
    "TKT-001" sampleTicket _ (by decide) (by decide)

/-- For a wildcard-free search string, the four-column LIKE disjunction of
the WHERE clause agrees with the spec-side substring disjunction. -/
theorem searchClause_eq (q : String) (hq : ∀ c ∈ q.data, ¬ c = '%' ∧ ¬ c = '_')
    (t : Ticket) :
    (sqlLike ("%" ++ q ++ "%") t.title || sqlLike ("%" ++ q ++ "%") t.description ||
      (match t.customer with
       | none => false
       | some c => sqlLike ("%" ++ q ++ "%") c) ||
      sqlLike ("%" ++ q ++ "%") t.id) =
    (infixCI q t.title || infixCI q t.description ||
      (match t.customer with
       | none => false
       | some c => infixCI q c) ||
      infixCI q t.id) := by
  rw [sqlLike_eq_infixCI hq, sqlLike_eq_infixCI hq, sqlLike_eq_infixCI hq]
  rcases t.customer with _ | c
  · rfl
  · dsimp only
    rw [sqlLike_eq_infixCI hq]

/-- C8 (amended): `listTickets` returns exactly the stored tickets passing
the WHERE clause, ordered by `created_at` descending; the clause coincides
with the spec's reading — pipeline/status exact match unless `"all"`, empty
or absent, search a case-insensitive substring match — whenever the search
string is free of the LIKE wildcards `%` and `_`. -/
theorem claim8_list_filter (db : DB) (pipeline status search : Option String) :
    (∀ t, t ∈ listTickets db pipeline status search ↔
      t ∈ db.tickets ∧ matchesFilter pipeline status search t = true) ∧
    (listTickets db pipeline status search).Pairwise
      (fun a b => b.created_at ≤ a.created_at) ∧
    (∀ t, (∀ q ∈ search, ∀ c ∈ q.data, ¬ c = '%' ∧ ¬ c = '_') →
      matchesFilter pipeline status search t =
        claimMatchesAmended pipeline status search t) := by
  refine ⟨?_, pairwise_sortTicketsDesc _, ?_⟩
  · intro t
    unfold listTickets sortTicketsDesc
    constructor
    · intro h
      have hm := List.mem_filter.mp (mem_sortBy.mp h)
      exact ⟨hm.1, hm.2⟩
    · rintro ⟨h1, h2⟩
      exact mem_sortBy.mpr (List.mem_filter.mpr ⟨h1, h2⟩)
  · intro t hw
    cases search with
    | none => rfl
    | some q =>
      have hq : ∀ c ∈ q.data, ¬ c = '%' ∧ ¬ c = '_' := hw q rfl
      by_cases hq0 : q = ""
      · subst hq0
        rfl
      · simp only [matchesFilter, claimMatchesAmended]
        rw [if_neg hq0, if_neg hq0, searchClause_eq q hq t]

/-- C8 witness: on the one-ticket store, a pipeline filter that matches
returns the ticket first-and-only, the result is sorted, and for the
wildcard-free search `"ell"` the WHERE clause agrees with the spec-side
substring matcher. -/
theorem claim8_list_filter_witness :
    (sampleTicket ∈ listTickets oneTicketDB (some "sales") none none ↔
      sampleTicket ∈ oneTicketDB.tickets ∧
        matchesFilter (some "sales") none none sampleTicket = true) ∧
    (listTickets oneTicketDB (some "sales") none none).Pairwise
      (fun a b => b.created_at ≤ a.created_at) ∧
    matchesFilter none none (some "ell") sampleTicket =
      claimMatchesAmended none none (some "ell") sampleTicket := by
  have h := claim8_list_filter oneTicketDB (some "sales") none none
  have h2 := (claim8_list_filter oneTicketDB none none (some "ell")).2.2 sampleTicket
    (by intro q hq; cases hq; decide)
  exact ⟨h.1 sampleTicket, h.2.1, h2⟩

/-- C8 counterexample: the claim's filter semantics as written fails on the
code — a supplied empty pipeline filter is ignored rather than
exact-matched, and a search containing `%` acts as a LIKE wildcard rather
than a literal substring. -/
theorem claim8_counterexample :
    listTickets oneTicketDB (some "") none none = [sampleTicket] ∧
    claimMatches (some "") none none sampleTicket = false ∧
    listTickets oneTicketDB none none (some "%") = [sampleTicket] ∧
    claimMatches none none (some "%") sampleTicket = false := by
  decide

/-- C10: ticket identifiers of deleted tickets can be reissued — creating
two tickets, deleting the one with the highest suffix, and creating again
assigns the new ticket the same id `TKT-002` the deleted ticket had, because
the allocator derives the next id only from tickets currently stored. -/
theorem claim10_id_reuse :
    reuseStep1.2.toOption.map Ticket.id = some "TKT-001" ∧
    reuseStep2.2.toOption.map Ticket.id = some "TKT-002" ∧
    reuseStep3.2 = Except.ok () ∧
    reuseStep3.1.tickets.map Ticket.id = ["TKT-001"] ∧
    reuseStep4.2.toOption.map Ticket.id = some "TKT-002" := by
  decide

end VagaTickets
